import Mathlib

/-!
Verification of the Future/Promise bridge and task cancellation model of the
`userver` coroutine engine.

Shallow embedding of:
* `src/src/engine/result_store.hpp` — `engine::impl::ResultStore<T>` and its
  `void` specialization;
* `src/src/engine/future.hpp` — `engine::Future<T>` / `engine::Promise<T>`
  (and the `Promise<void>` specialization);
* `src/include/engine/task/task.hpp` — the task enums and wait interface.

`future_state.hpp` (`engine::impl::FutureState<T>`) and the TaskContext /
TaskProcessor implementation are not among the sources; they are modelled
from the specification where a claim depends on them (each such definition
carries a doc comment starting `Modelled from the spec:`).

Exceptions are embedded as an inductive type `Exc`; C++ functions that may
throw return `Except Exc _` or an explicit outcome type; a potentially
blocking operation returns an outcome with a `blocks` constructor standing
for "suspends until resolved".
-/

/-- Error codes of `std::future_errc` used by the sources. -/
inductive FutureErrc where
  | brokenPromise
  | futureAlreadyRetrieved
  | promiseAlreadySatisfied
  | noState
deriving DecidableEq, Repr

/-- Embedded C++ exceptions: `std::future_error`, `std::runtime_error`,
or an arbitrary user payload (set via `SetException`). -/
inductive Exc where
  | futureError (code : FutureErrc)
  | runtimeError (msg : String)
  | payload (n : Nat)
deriving DecidableEq, Repr

/-- `engine::impl::ResultStore<T>` (result_store.hpp, lines 11-24):
a `boost::optional<T> value_` and a `std::exception_ptr exception_`
(the null exception_ptr is `none`). -/
structure ResultStore (T : Type) where
  value : Option T
  exception : Option Exc
deriving DecidableEq, Repr

/-- A default-constructed `ResultStore<T>`: empty optional, null exception. -/
def ResultStore.init {T : Type} : ResultStore T := ⟨none, none⟩

/-- `ResultStore<T>::Get` (result_store.hpp, lines 39-44):
`if (value_) return std::move(*value_); if (exception_)
std::rethrow_exception(exception_); throw std::runtime_error(...)`. -/
def ResultStore.Get {T : Type} (s : ResultStore T) : Except Exc T :=
  match s.value with
  | some v => .ok v
  | none =>
    match s.exception with
    | some e => .error e
    | none => .error (.runtimeError "result store is not ready")

/-- `ResultStore<T>::SetValue` (result_store.hpp, lines 46-54):
`value_ = value;` / `value_.emplace(std::move(value));`. -/
def ResultStore.SetValue {T : Type} (s : ResultStore T) (v : T) : ResultStore T :=
  { s with value := some v }

/-- `ResultStore<T>::SetException` (result_store.hpp, lines 56-59):
`exception_ = std::move(exception);`. -/
def ResultStore.SetException {T : Type} (s : ResultStore T) (e : Exc) : ResultStore T :=
  { s with exception := some e }

/-- `engine::impl::ResultStore<void>` (result_store.hpp, lines 26-37):
`bool has_value_{false}` and a `std::exception_ptr exception_`. -/
structure ResultStoreVoid where
  has_value : Bool
  exception : Option Exc
deriving DecidableEq, Repr

/-- A default-constructed `ResultStore<void>`. -/
def ResultStoreVoid.init : ResultStoreVoid := ⟨false, none⟩

/-- `ResultStore<void>::Get` (result_store.hpp, lines 61-65). -/
def ResultStoreVoid.Get (s : ResultStoreVoid) : Except Exc Unit :=
  if s.has_value then .ok ()
  else
    match s.exception with
    | some e => .error e
    | none => .error (.runtimeError "result store is not ready")

/-- `ResultStore<void>::SetValue` (result_store.hpp, line 67). -/
def ResultStoreVoid.SetValue (s : ResultStoreVoid) : ResultStoreVoid :=
  { s with has_value := true }

/-- `ResultStore<void>::SetException` (result_store.hpp, lines 69-71). -/
def ResultStoreVoid.SetException (s : ResultStoreVoid) (e : Exc) : ResultStoreVoid :=
  { s with exception := some e }

/-- Modelled from the spec: `engine::impl::FutureState<T>` (future_state.hpp is
not among the sources; only its callers in future.hpp are). Per spec §2 and
§4.2 it owns a `ResultStore<T>`, a "has a value or exception been set" flag
(`is_ready`) and a "retrieved" flag, plus the wait/wake primitive (implicit in
this sequential model). -/
structure FutureState (T : Type) where
  result : ResultStore T
  is_ready : Bool
  is_retrieved : Bool
deriving DecidableEq, Repr

/-- A fresh `FutureState<T>` as made by the `Promise<T>` constructor. -/
def FutureState.init {T : Type} : FutureState T := ⟨ResultStore.init, false, false⟩

/-- Modelled from the spec: `FutureState<T>::IsReady` — whether a value or
exception has been set. -/
def FutureState.IsReady {T : Type} (s : FutureState T) : Bool := s.is_ready

/-- Modelled from the spec: `FutureState<T>::SetValue` — resolves the shared
state exactly once; a second resolution is a programming error signalled
synchronously (§4.2, §7). -/
def FutureState.SetValue {T : Type} (s : FutureState T) (v : T) :
    Except Exc (FutureState T) :=
  if s.is_ready then .error (.futureError .promiseAlreadySatisfied)
  else .ok { s with result := s.result.SetValue v, is_ready := true }

/-- Modelled from the spec: `FutureState<T>::SetException` — resolves the
shared state exactly once with an exception payload. -/
def FutureState.SetException {T : Type} (s : FutureState T) (e : Exc) :
    Except Exc (FutureState T) :=
  if s.is_ready then .error (.futureError .promiseAlreadySatisfied)
  else .ok { s with result := s.result.SetException e, is_ready := true }

/-- Modelled from the spec: `FutureState<T>::EnsureNotRetrieved` — at most one
`Future` may ever be bound to a state; a second attempt is an
"already retrieved" failure (§4.2). -/
def FutureState.EnsureNotRetrieved {T : Type} (s : FutureState T) :
    Except Exc (FutureState T) :=
  if s.is_retrieved then .error (.futureError .futureAlreadyRetrieved)
  else .ok { s with is_retrieved := true }

/-- Modelled from the spec: `FutureState<T>::Get` — blocks until a value is
available (`none` = suspends), then delivers the `ResultStore` result. -/
def FutureState.Get {T : Type} (s : FutureState T) : Option (Except Exc T) :=
  if s.is_ready then some s.result.Get else none

/-- Modelled from the spec: `FutureState<T>::Wait` — blocks until resolved
(`none` = suspends), never consuming and never raising the stored result. -/
def FutureState.Wait {T : Type} (s : FutureState T) : Option Unit :=
  if s.is_ready then some () else none

/-- `std::future_status` values returned by `WaitFor` / `WaitUntil`. -/
inductive FutureStatus where
  | ready
  | timeout
deriving DecidableEq, Repr

/-- Modelled from the spec: `FutureState<T>::WaitFor` — returns `ready` once
resolved, `timeout` when the deadline elapses first (the sequential
projection of the timed wait). -/
def FutureState.WaitFor {T : Type} (s : FutureState T) : FutureStatus :=
  if s.is_ready then .ready else .timeout

/-- Modelled from the spec: `FutureState<T>::WaitUntil` — same contract as
`WaitFor` with an absolute deadline. -/
def FutureState.WaitUntil {T : Type} (s : FutureState T) : FutureStatus :=
  if s.is_ready then .ready else .timeout

/-- Combined state of one `Promise<T>` / `Future<T>` pair and their shared
`FutureState<T>`. `promiseBound` / `futureBound` record whether the
respective handle's `state_` shared pointer is non-null (it is null after
default construction, move-out, or `state_.reset()`). -/
structure World (T : Type) where
  fs : FutureState T
  promiseBound : Bool
  futureBound : Bool
deriving DecidableEq, Repr

/-- `Promise<T>::Promise` (future.hpp, line 153): allocates a fresh shared
state; no future exists yet. -/
def Promise.init {T : Type} : World T := ⟨FutureState.init, true, false⟩

/-- `Promise<T>::GetFuture` (future.hpp, lines 163-166) together with the
private `Future<T>` constructor (lines 138-143): copies the promise's
`state_`, `CheckValid()` (null state → `no_state`), then
`state_->EnsureNotRetrieved()`. -/
def Promise.GetFuture {T : Type} (w : World T) : Except Exc (World T) :=
  if !w.promiseBound then .error (.futureError .noState)
  else
    match w.fs.EnsureNotRetrieved with
    | .error e => .error e
    | .ok fs_retr => .ok { w with fs := fs_retr, futureBound := true }

/-- `Promise<T>::SetValue` (future.hpp, lines 168-176): delegates to
`state_->SetValue` (callable only on a promise owning a state). -/
def Promise.SetValue {T : Type} (w : World T) (v : T) : Except Exc (World T) :=
  match w.fs.SetValue v with
  | .error e => .error e
  | .ok fs2 => .ok { w with fs := fs2 }

/-- `Promise<T>::SetException` (future.hpp, lines 178-181). -/
def Promise.SetException {T : Type} (w : World T) (e : Exc) : Except Exc (World T) :=
  match w.fs.SetException e with
  | .error e2 => .error e2
  | .ok fs2 => .ok { w with fs := fs2 }

/-- `Promise<T>::~Promise` (future.hpp, lines 155-161):
`if (state_ && !state_->IsReady()) state_->SetException(broken_promise)`. -/
def Promise.destruct {T : Type} (w : World T) : World T :=
  if w.promiseBound && !w.fs.IsReady then
    match w.fs.SetException (.futureError .brokenPromise) with
    | .ok fs2 => { w with fs := fs2, promiseBound := false }
    | .error _ => { w with promiseBound := false }
  else { w with promiseBound := false }

/-- Outcome of `Future<T>::Get`: normal return, a thrown exception, or a
suspension that never wakes (state never resolved within the run). -/
inductive GetOutcome (T : Type) where
  | returns (v : T)
  | throws (e : Exc)
  | blocks
deriving DecidableEq, Repr

/-- `Future<T>::Get` (future.hpp, lines 101-107): `CheckValid()` (lines
145-150: null `state_` → throw `future_error(no_state)`), then
`auto result = state_->Get(); state_.reset(); return result;`. The
`state_.reset()` runs only when `state_->Get()` returned normally — a
rethrown stored exception propagates before the reset. -/
def Future.Get {T : Type} (w : World T) : GetOutcome T × World T :=
  if !w.futureBound then (.throws (.futureError .noState), w)
  else
    match w.fs.Get with
    | none => (.blocks, w)
    | some (.ok v) => (.returns v, { w with futureBound := false })
    | some (.error e) => (.throws e, w)

/-- Outcome of a `void`-returning wait: normal return, throw, or suspension. -/
inductive WaitOutcome where
  | returns
  | throws (e : Exc)
  | blocks
deriving DecidableEq, Repr

/-- `Future<T>::Wait` (future.hpp, lines 116-120): `CheckValid();
state_->Wait();` — `const`, never resets `state_`. -/
def Future.Wait {T : Type} (w : World T) : WaitOutcome × World T :=
  if !w.futureBound then (.throws (.futureError .noState), w)
  else
    match w.fs.Wait with
    | none => (.blocks, w)
    | some _ => (.returns, w)

/-- Outcome of a timed wait: a `std::future_status` or a thrown exception. -/
inductive WaitForOutcome where
  | status (s : FutureStatus)
  | throws (e : Exc)
deriving DecidableEq, Repr

/-- `Future<T>::WaitFor` (future.hpp, lines 122-128): `CheckValid();
return state_->WaitFor(duration);` — `const`, never resets `state_`. -/
def Future.WaitFor {T : Type} (w : World T) : WaitForOutcome × World T :=
  if !w.futureBound then (.throws (.futureError .noState), w)
  else (.status w.fs.WaitFor, w)

/-- `Future<T>::WaitUntil` (future.hpp, lines 130-136): `CheckValid();
return state_->WaitUntil(until);` — `const`, never resets `state_`. -/
def Future.WaitUntil {T : Type} (w : World T) : WaitForOutcome × World T :=
  if !w.futureBound then (.throws (.futureError .noState), w)
  else (.status w.fs.WaitUntil, w)

/-- `Future<T>::IsValid` (future.hpp, lines 96-99): `return !!state_;`. -/
def Future.IsValid {T : Type} (w : World T) : Bool := w.futureBound

/-- Modelled from the spec: `engine::impl::FutureState<void>` (future_state.hpp
is not among the sources). Per spec §4.2 and §4.3 the `void` contract is the
generic one with presence-of-value in place of a stored datum; it owns a
`ResultStore<void>`. -/
structure FutureStateVoid where
  result : ResultStoreVoid
  is_ready : Bool
  is_retrieved : Bool
deriving DecidableEq, Repr

/-- A fresh `FutureState<void>` as made by the `Promise<void>` constructor. -/
def FutureStateVoid.init : FutureStateVoid := ⟨ResultStoreVoid.init, false, false⟩

/-- Modelled from the spec: `FutureState<void>::IsReady`. -/
def FutureStateVoid.IsReady (s : FutureStateVoid) : Bool := s.is_ready

/-- Modelled from the spec: `FutureState<void>::SetValue` — resolves the
shared state exactly once (presence flag instead of a datum). -/
def FutureStateVoid.SetValue (s : FutureStateVoid) : Except Exc FutureStateVoid :=
  if s.is_ready then .error (.futureError .promiseAlreadySatisfied)
  else .ok { s with result := s.result.SetValue, is_ready := true }

/-- Modelled from the spec: `FutureState<void>::SetException` — resolves the
shared state exactly once with an exception payload. -/
def FutureStateVoid.SetException (s : FutureStateVoid) (e : Exc) :
    Except Exc FutureStateVoid :=
  if s.is_ready then .error (.futureError .promiseAlreadySatisfied)
  else .ok { s with result := s.result.SetException e, is_ready := true }

/-- Modelled from the spec: `FutureState<void>::EnsureNotRetrieved`. -/
def FutureStateVoid.EnsureNotRetrieved (s : FutureStateVoid) :
    Except Exc FutureStateVoid :=
  if s.is_retrieved then .error (.futureError .futureAlreadyRetrieved)
  else .ok { s with is_retrieved := true }

/-- Modelled from the spec: `FutureState<void>::Get` — blocks until resolved
(`none` = suspends), then delivers the `ResultStore<void>` result. -/
def FutureStateVoid.Get (s : FutureStateVoid) : Option (Except Exc Unit) :=
  if s.is_ready then some s.result.Get else none

/-- Combined state of one `Promise<void>` / `Future<void>` pair. -/
structure WorldVoid where
  fs : FutureStateVoid
  promiseBound : Bool
  futureBound : Bool
deriving DecidableEq, Repr

/-- `Promise<void>::Promise` (future.hpp, lines 183-184). -/
def PromiseVoid.init : WorldVoid := ⟨FutureStateVoid.init, true, false⟩

/-- `Promise<void>::GetFuture` (future.hpp, line 193) with the `Future`
constructor (lines 138-143). -/
def PromiseVoid.GetFuture (w : WorldVoid) : Except Exc WorldVoid :=
  if !w.promiseBound then .error (.futureError .noState)
  else
    match w.fs.EnsureNotRetrieved with
    | .error e => .error e
    | .ok fs_retr => .ok { w with fs := fs_retr, futureBound := true }

/-- `Promise<void>::SetValue` (future.hpp, lines 195-198):
`assert(!state_->IsReady()); state_->SetValue();`. -/
def PromiseVoid.SetValue (w : WorldVoid) : Except Exc WorldVoid :=
  match w.fs.SetValue with
  | .error e => .error e
  | .ok fs2 => .ok { w with fs := fs2 }

/-- `Promise<void>::SetException` (future.hpp, lines 200-202). -/
def PromiseVoid.SetException (w : WorldVoid) (e : Exc) : Except Exc WorldVoid :=
  match w.fs.SetException e with
  | .error e2 => .error e2
  | .ok fs2 => .ok { w with fs := fs2 }

/-- `Promise<void>::~Promise` (future.hpp, lines 186-191): same text as the
generic destructor. -/
def PromiseVoid.destruct (w : WorldVoid) : WorldVoid :=
  if w.promiseBound && !w.fs.IsReady then
    match w.fs.SetException (.futureError .brokenPromise) with
    | .ok fs2 => { w with fs := fs2, promiseBound := false }
    | .error _ => { w with promiseBound := false }
  else { w with promiseBound := false }

/-- `Future<void>::Get` (future.hpp, lines 109-114): `CheckValid();
state_->Get(); state_.reset();` — the reset runs only when `Get` returned. -/
def FutureVoid.Get (w : WorldVoid) : GetOutcome Unit × WorldVoid :=
  if !w.futureBound then (.throws (.futureError .noState), w)
  else
    match w.fs.Get with
    | none => (.blocks, w)
    | some (.ok _) => (.returns (), { w with futureBound := false })
    | some (.error e) => (.throws e, w)

/-- `Task::Importance` (task.hpp, lines 27-33): `kNormal`, `kCritical`
("cannot be cancelled due to task processor overload"). -/
inductive Importance where
  | kNormal
  | kCritical
deriving DecidableEq, Repr

/-- `Task::State` (task.hpp, lines 35-44). -/
inductive TaskState where
  | kInvalid
  | kNew
  | kQueued
  | kRunning
  | kSuspended
  | kCancelled
  | kCompleted
deriving DecidableEq, Repr

/-- `Task::CancellationReason` (task.hpp, lines 46-53). -/
inductive CancellationReason where
  | kNone
  | kUserRequest
  | kOverload
  | kAbandoned
  | kShutdown
deriving DecidableEq, Repr

/-- Modelled from the spec: the `TaskContext` control block (its
implementation is not among the sources; only the `Task` handle header is).
Spec §3: `state`, `cancellation_reason`, `importance` and the cooperative
cancellation-request flag. -/
structure TaskCtx where
  state : TaskState
  reason : CancellationReason
  importance : Importance
  cancelRequested : Bool
deriving DecidableEq, Repr

/-- A freshly created task context: spec §4.1, state `New`, no cancellation. -/
def TaskCtx.init (imp : Importance) : TaskCtx :=
  ⟨.kNew, .kNone, imp, false⟩

/-- `Task::IsFinished` (task.hpp, line 77): the task reached a terminal
state (`Cancelled` or `Completed`, spec §4.1). -/
def TaskCtx.IsFinished (c : TaskCtx) : Bool :=
  c.state = TaskState.kCancelled || c.state = TaskState.kCompleted

/-- `Task::GetCancellationReason` (task.hpp, lines 98-99): the currently
recorded reason. -/
def TaskCtx.GetCancellationReason (c : TaskCtx) : CancellationReason := c.reason

/-- Modelled from the spec: the transitions of the TaskContext state machine,
spec §4.1, §5 and §6 (the TaskContext/TaskProcessor implementation is not
among the sources). `New → Queued → Running ⇄ Suspended` with terminal
`Cancelled`/`Completed`; `RequestCancel` sets the flag and records a reason
without changing `state` and has no effect once terminal; at a cancellation
point a task unwinds to `Cancelled` unless it is `Critical` and the reason is
`Overload`; the executor may force-cancel a queued task with reason
`Overload` only when its importance is not `Critical` (§6, task.hpp line 31). -/
inductive TaskStep : TaskCtx → TaskCtx → Prop where
  | enqueue (c : TaskCtx) (h : c.state = .kNew) :
      TaskStep c { c with state := .kQueued }
  | dispatch (c : TaskCtx) (h : c.state = .kQueued) :
      TaskStep c { c with state := .kRunning }
  | suspend (c : TaskCtx) (h : c.state = .kRunning) :
      TaskStep c { c with state := .kSuspended }
  | resume (c : TaskCtx) (h : c.state = .kSuspended) :
      TaskStep c { c with state := .kRunning }
  | complete (c : TaskCtx) (h : c.state = .kRunning) :
      TaskStep c { c with state := .kCompleted }
  | requestCancel (c : TaskCtx) (r : CancellationReason) (hr : r ≠ .kNone)
      (hterm : c.IsFinished = false) :
      TaskStep c { c with cancelRequested := true, reason := r }
  | cancellationPoint (c : TaskCtx) (h : c.state = .kRunning)
      (hreq : c.cancelRequested = true)
      (hcrit : ¬(c.importance = .kCritical ∧ c.reason = .kOverload)) :
      TaskStep c { c with state := .kCancelled }
  | overloadCancel (c : TaskCtx) (h : c.state = .kQueued)
      (himp : c.importance = .kNormal) :
      TaskStep c { c with state := .kCancelled, reason := .kOverload,
                          cancelRequested := true }

/-- Reachability in the task state machine: zero or more `TaskStep`s. -/
def TaskReachable : TaskCtx → TaskCtx → Prop :=
  Relation.ReflTransGen TaskStep

/-- Outcome of `Task::WaitFor` / `WaitUntil` for the caller. -/
inductive TaskWaitOutcome where
  | finished
  | timedOut
deriving DecidableEq, Repr

/-- Modelled from the spec: `Task::DoWaitUntil` (task.hpp, lines 132-141
delegate to it; its implementation is not among the sources). Spec §4.1, §5:
the caller suspends until the target reaches a terminal state or the deadline
elapses; a timeout returns a timed-out outcome "without altering any target
task's state". `deadlineElapses` records, from the environment, that the
deadline fires before the target finishes; the function returns the outcome
for the caller together with the (unchanged) target context. -/
def Task.DoWaitUntil (target : TaskCtx) (deadlineElapses : Bool) :
    TaskWaitOutcome × TaskCtx :=
  if target.IsFinished then (.finished, target)
  else if deadlineElapses then (.timedOut, target)
  else (.finished, target)

/-- One mutating call on a `ResultStore<T>`: `SetValue(v)` or
`SetException(e)`. -/
inductive RSOp (T : Type) where
  | setValue (v : T)
  | setException (e : Exc)
deriving DecidableEq, Repr

/-- Apply one `RSOp` to a `ResultStore<T>`. -/
def ResultStore.apply {T : Type} (s : ResultStore T) : RSOp T → ResultStore T
  | .setValue v => s.SetValue v
  | .setException e => s.SetException e

/-- Apply a sequence of `SetValue`/`SetException` calls in order. -/
def ResultStore.applyAll {T : Type} : ResultStore T → List (RSOp T) → ResultStore T
  | s, [] => s
  | s, op :: rest => (s.apply op).applyAll rest

/-! ## Helper lemmas -/

lemma applyAll_value_none {T : Type} (ops : List (RSOp T)) (s : ResultStore T)
    (hs : s.value = none) (h : ∀ v : T, RSOp.setValue v ∉ ops) :
    (s.applyAll ops).value = none := by
  induction ops generalizing s with
  | nil => simpa [ResultStore.applyAll] using hs
  | cons op rest ih =>
    cases op with
    | setValue v => exact absurd (List.mem_cons_self _ _) (h v)
    | setException e =>
      rw [ResultStore.applyAll]
      refine ih _ ?_ ?_
      · simpa [ResultStore.apply, ResultStore.SetException] using hs
      · intro v hv
        exact h v (List.mem_cons_of_mem _ hv)

lemma applyAll_exception_none {T : Type} (ops : List (RSOp T)) (s : ResultStore T)
    (hs : s.exception = none) (h : ∀ e : Exc, RSOp.setException e ∉ ops) :
    (s.applyAll ops).exception = none := by
  induction ops generalizing s with
  | nil => simpa [ResultStore.applyAll] using hs
  | cons op rest ih =>
    cases op with
    | setException e => exact absurd (List.mem_cons_self _ _) (h e)
    | setValue v =>
      rw [ResultStore.applyAll]
      refine ih _ ?_ ?_
      · simpa [ResultStore.apply, ResultStore.SetValue] using hs
      · intro e he
        exact h e (List.mem_cons_of_mem _ he)

/-! ## Claims -/

/-- C1: after `Promise<T>::SetValue(x)` and exactly one `Future<T>::Get()`
on the future obtained from that promise, `Get` returns `x`; a second `Get`
on the same future throws `std::future_error(no_state)` because the first
`Get` released the shared state. -/
theorem C1_exactly_once_delivery {T : Type} (x : T) :
    ∃ w1 w2 : World T,
      Promise.GetFuture (Promise.init : World T) = .ok w1 ∧
      Promise.SetValue w1 x = .ok w2 ∧
      (Future.Get w2).1 = .returns x ∧
      (Future.Get (Future.Get w2).2).1 = .throws (.futureError .noState) :=
  ⟨_, _, rfl, rfl, rfl, rfl⟩

/-- C1 witness at a concrete input. -/
theorem C1_exactly_once_delivery_witness :
    ∃ w1 w2 : World Nat,
      Promise.GetFuture (Promise.init : World Nat) = .ok w1 ∧
      Promise.SetValue w1 42 = .ok w2 ∧
      (Future.Get w2).1 = .returns 42 ∧
      (Future.Get (Future.Get w2).2).1 = .throws (.futureError .noState) :=
  C1_exactly_once_delivery 42

/-- C2: destroying a `Promise` (generic or `void`) that still owns a shared
state on which nothing was ever set resolves that state with a
`broken_promise` exception: a consumer whose `Get` was blocking is unparked,
and any later `Get` throws `std::future_error(broken_promise)` instead of
blocking forever. -/
theorem C2_broken_promise_on_destruction :
    (∀ (T : Type) (w : World T),
      w.promiseBound = true → w.fs.is_ready = false →
      w.fs.result = ResultStore.init →
      (Promise.destruct w).fs.is_ready = true ∧
      (Promise.destruct w).fs.result.exception =
        some (.futureError .brokenPromise) ∧
      (w.futureBound = true →
        (Future.Get w).1 = .blocks ∧
        (Future.Get (Promise.destruct w)).1 =
          .throws (.futureError .brokenPromise))) ∧
    (∀ w : WorldVoid,
      w.promiseBound = true → w.fs.is_ready = false →
      w.fs.result = ResultStoreVoid.init →
      (PromiseVoid.destruct w).fs.is_ready = true ∧
      (PromiseVoid.destruct w).fs.result.exception =
        some (.futureError .brokenPromise) ∧
      (w.futureBound = true →
        (FutureVoid.Get w).1 = .blocks ∧
        (FutureVoid.Get (PromiseVoid.destruct w)).1 =
          .throws (.futureError .brokenPromise))) := by
  constructor
  · intro T w hp hr hres
    simp [Promise.destruct, FutureState.IsReady, FutureState.SetException,
      Future.Get, FutureState.Get, ResultStore.Get, ResultStore.SetException,
      ResultStore.init, hp, hr, hres]
    intro hf
    simp [hf]
  · intro w hp hr hres
    simp [PromiseVoid.destruct, FutureStateVoid.IsReady,
      FutureStateVoid.SetException, FutureVoid.Get, FutureStateVoid.Get,
      ResultStoreVoid.Get, ResultStoreVoid.SetException, ResultStoreVoid.init,
      hp, hr, hres]
    intro hf
    simp [hf]

/-- C2 witness: the scenario promise-created, future-retrieved, promise
destroyed unresolved, at `T = Nat` and at `void`. -/
theorem C2_broken_promise_on_destruction_witness :
    ((⟨FutureState.init, true, true⟩ : World Nat).promiseBound = true ∧
      (Promise.destruct (⟨FutureState.init, true, true⟩ : World Nat)).fs.result.exception =
        some (.futureError .brokenPromise) ∧
      (Future.Get (Promise.destruct (⟨FutureState.init, true, true⟩ : World Nat))).1 =
        .throws (.futureError .brokenPromise)) ∧
    ((⟨FutureStateVoid.init, true, true⟩ : WorldVoid).promiseBound = true ∧
      (PromiseVoid.destruct (⟨FutureStateVoid.init, true, true⟩ : WorldVoid)).fs.result.exception =
        some (.futureError .brokenPromise) ∧
      (FutureVoid.Get (PromiseVoid.destruct (⟨FutureStateVoid.init, true, true⟩ : WorldVoid))).1 =
        .throws (.futureError .brokenPromise)) := by
  have hg := C2_broken_promise_on_destruction.1 Nat ⟨FutureState.init, true, true⟩
    rfl rfl rfl
  have hv := C2_broken_promise_on_destruction.2 ⟨FutureStateVoid.init, true, true⟩
    rfl rfl rfl
  exact ⟨⟨rfl, hg.2.1, (hg.2.2 rfl).2⟩, ⟨rfl, hv.2.1, (hv.2.2 rfl).2⟩⟩

/-- C3 counterexample: the sequence `SetValue(7); SetException(e)` leaves the
`ResultStore` holding BOTH a value and an exception, refuting "never both
simultaneously ... preserved by every sequence of SetValue and SetException
calls". -/
theorem C3_counterexample :
    ((ResultStore.init : ResultStore Nat).applyAll
        [RSOp.setValue 7, RSOp.setException (Exc.payload 1)]).value.isSome = true ∧
    ((ResultStore.init : ResultStore Nat).applyAll
        [RSOp.setValue 7, RSOp.setException (Exc.payload 1)]).exception.isSome = true :=
  ⟨rfl, rfl⟩

/-- C3 amended: a `ResultStore<T>` never holds a value and an exception
simultaneously, for every sequence of `SetValue`/`SetException` calls that
does not contain both kinds of calls (the at-most-one-resolution discipline
the owning FutureState enforces, spec §4.3). -/
theorem C3_value_xor_exception {T : Type} (ops : List (RSOp T))
    (h : ¬((∃ v, RSOp.setValue v ∈ ops) ∧ (∃ e, RSOp.setException e ∈ ops))) :
    ¬(((ResultStore.init : ResultStore T).applyAll ops).value.isSome = true ∧
      ((ResultStore.init : ResultStore T).applyAll ops).exception.isSome = true) := by
  rw [not_and_or] at h
  rcases h with hv | he
  · push_neg at hv
    have : ((ResultStore.init : ResultStore T).applyAll ops).value = none :=
      applyAll_value_none ops _ rfl (fun v => hv v)
    simp [this]
  · push_neg at he
    have : ((ResultStore.init : ResultStore T).applyAll ops).exception = none :=
      applyAll_exception_none ops _ rfl (fun e => he e)
    simp [this]

/-- C3 witness: a pure-`SetValue` sequence never leaves both set. -/
theorem C3_value_xor_exception_witness :
    ¬(((ResultStore.init : ResultStore Nat).applyAll
        [RSOp.setValue 5]).value.isSome = true ∧
      ((ResultStore.init : ResultStore Nat).applyAll
        [RSOp.setValue 5]).exception.isSome = true) :=
  C3_value_xor_exception [RSOp.setValue 5]
    (by rintro ⟨-, e, he⟩; simp at he)

/-- C4: `ResultStore::Get` (generic and `void`) returns the stored value when
present, re-raises the stored exception when an exception is present and no
value is, and fails with the "result store is not ready" error when neither
is set. -/
theorem C4_result_store_get_cases :
    (∀ (T : Type) (s : ResultStore T),
      (∀ v, s.value = some v → s.Get = .ok v) ∧
      (∀ e, s.value = none → s.exception = some e → s.Get = .error e) ∧
      (s.value = none → s.exception = none →
        s.Get = .error (.runtimeError "result store is not ready"))) ∧
    (∀ s : ResultStoreVoid,
      (s.has_value = true → s.Get = .ok ()) ∧
      (∀ e, s.has_value = false → s.exception = some e → s.Get = .error e) ∧
      (s.has_value = false → s.exception = none →
        s.Get = .error (.runtimeError "result store is not ready"))) := by
  constructor
  · intro T s
    refine ⟨?_, ?_, ?_⟩
    · intro v hv
      simp [ResultStore.Get, hv]
    · intro e hv he
      simp [ResultStore.Get, hv, he]
    · intro hv he
      simp [ResultStore.Get, hv, he]
  · intro s
    refine ⟨?_, ?_, ?_⟩
    · intro hv
      simp [ResultStoreVoid.Get, hv]
    · intro e hv he
      simp [ResultStoreVoid.Get, hv, he]
    · intro hv he
      simp [ResultStoreVoid.Get, hv, he]

/-- C4 witness: all three branches at concrete stores, generic and `void`. -/
theorem C4_result_store_get_cases_witness :
    (ResultStore.Get ⟨some 3, none⟩ = .ok 3 ∧
      (ResultStore.Get (⟨none, some (Exc.payload 9)⟩ : ResultStore Nat)) =
        .error (Exc.payload 9) ∧
      (ResultStore.Get (⟨none, none⟩ : ResultStore Nat)) =
        .error (.runtimeError "result store is not ready")) ∧
    (ResultStoreVoid.Get ⟨true, none⟩ = .ok () ∧
      ResultStoreVoid.Get ⟨false, some (Exc.payload 9)⟩ = .error (Exc.payload 9) ∧
      ResultStoreVoid.Get ⟨false, none⟩ =
        .error (.runtimeError "result store is not ready")) := by
  refine ⟨⟨?_, ?_, ?_⟩, ⟨?_, ?_, ?_⟩⟩
  · exact (C4_result_store_get_cases.1 Nat ⟨some 3, none⟩).1 3 rfl
  · exact (C4_result_store_get_cases.1 Nat ⟨none, some (Exc.payload 9)⟩).2.1
      (Exc.payload 9) rfl rfl
  · exact (C4_result_store_get_cases.1 Nat ⟨none, none⟩).2.2 rfl rfl
  · exact (C4_result_store_get_cases.2 ⟨true, none⟩).1 rfl
  · exact (C4_result_store_get_cases.2 ⟨false, some (Exc.payload 9)⟩).2.1
      (Exc.payload 9) rfl rfl
  · exact (C4_result_store_get_cases.2 ⟨false, none⟩).2.2 rfl rfl

/-- C5: on a promise owning a not-yet-retrieved shared state, the first
`GetFuture` returns the single valid future bound to that state and marks it
retrieved; any call on a promise whose state is already retrieved throws the
"already retrieved" failure instead of yielding a second usable future. -/
theorem C5_get_future_exactly_once {T : Type} (w : World T)
    (hp : w.promiseBound = true) (hr : w.fs.is_retrieved = false) :
    ∃ w1 : World T,
      Promise.GetFuture w = .ok w1 ∧
      Future.IsValid w1 = true ∧
      w1.fs.is_retrieved = true ∧
      ∀ w2 : World T, w2.promiseBound = true → w2.fs.is_retrieved = true →
        Promise.GetFuture w2 =
          .error (.futureError .futureAlreadyRetrieved) := by
  refine ⟨⟨⟨w.fs.result, w.fs.is_ready, true⟩, w.promiseBound, true⟩,
    ?_, rfl, rfl, ?_⟩
  · simp [Promise.GetFuture, FutureState.EnsureNotRetrieved, hp, hr]
  · intro w2 hp2 hr2
    simp [Promise.GetFuture, FutureState.EnsureNotRetrieved, hp2, hr2]

/-- C5 witness: a fresh `Promise<Nat>`. -/
theorem C5_get_future_exactly_once_witness :
    ∃ w1 : World Nat,
      Promise.GetFuture (Promise.init : World Nat) = .ok w1 ∧
      Future.IsValid w1 = true ∧
      w1.fs.is_retrieved = true ∧
      ∀ w2 : World Nat, w2.promiseBound = true → w2.fs.is_retrieved = true →
        Promise.GetFuture w2 =
          .error (.futureError .futureAlreadyRetrieved) :=
  C5_get_future_exactly_once (Promise.init : World Nat) rfl rfl

/-- C6: on a valid future, `Wait`, `WaitFor` and `WaitUntil` leave the world
(and hence the future's validity) unchanged, so they may be repeated freely;
once the state is resolved they return normally (`returns` / status `ready`)
even when the resolution was an exception — the stored exception is thrown
only by a later `Get`. -/
theorem C6_wait_does_not_consume {T : Type} (w : World T)
    (hf : w.futureBound = true) :
    (Future.Wait w).2 = w ∧
    (Future.WaitFor w).2 = w ∧
    (Future.WaitUntil w).2 = w ∧
    Future.IsValid (Future.Wait w).2 = true ∧
    (w.fs.is_ready = true →
      (Future.Wait w).1 = .returns ∧
      (Future.WaitFor w).1 = .status .ready ∧
      (Future.WaitUntil w).1 = .status .ready) ∧
    (∀ e, w.fs.is_ready = true → w.fs.result.value = none →
      w.fs.result.exception = some e →
      (Future.Wait w).1 = .returns ∧
      (Future.Get (Future.Wait w).2).1 = .throws e) := by
  refine ⟨?_, ?_, ?_, ?_, ?_, ?_⟩
  · simp [Future.Wait, FutureState.Wait, hf]
    split <;> rfl
  · simp [Future.WaitFor, hf]
  · simp [Future.WaitUntil, hf]
  · simp [Future.Wait, FutureState.Wait, Future.IsValid, hf]
    split <;> simp [hf]
  · intro hready
    simp [Future.Wait, Future.WaitFor, Future.WaitUntil, FutureState.Wait,
      FutureState.WaitFor, FutureState.WaitUntil, hf, hready]
  · intro e hready hv he
    simp [Future.Wait, Future.Get, FutureState.Wait, FutureState.Get,
      ResultStore.Get, hf, hready, hv, he]

/-- C6 witness: a valid future over a state resolved with an exception. -/
theorem C6_wait_does_not_consume_witness :
    (Future.Wait (⟨⟨⟨none, some (Exc.payload 3)⟩, true, true⟩, true, true⟩ :
        World Nat)).1 = .returns ∧
    (Future.Wait (⟨⟨⟨none, some (Exc.payload 3)⟩, true, true⟩, true, true⟩ :
        World Nat)).2 =
      (⟨⟨⟨none, some (Exc.payload 3)⟩, true, true⟩, true, true⟩ : World Nat) ∧
    (Future.Get (Future.Wait
        (⟨⟨⟨none, some (Exc.payload 3)⟩, true, true⟩, true, true⟩ :
          World Nat)).2).1 = .throws (Exc.payload 3) := by
  have h := C6_wait_does_not_consume
    (⟨⟨⟨none, some (Exc.payload 3)⟩, true, true⟩, true, true⟩ : World Nat) rfl
  exact ⟨(h.2.2.2.2.2 (Exc.payload 3) rfl rfl rfl).1, h.1,
    (h.2.2.2.2.2 (Exc.payload 3) rfl rfl rfl).2⟩

/-- C9: on an invalid future (null `state_`: default-constructed, moved-from,
or released by a successful `Get`), each of `Get`, `Wait`, `WaitFor` and
`WaitUntil` throws `std::future_error(no_state)` and leaves the world
unchanged — none of them blocks or returns a result; the `void`
specialization of `Get` behaves the same. -/
theorem C9_invalid_future_throws_no_state :
    (∀ (T : Type) (w : World T), w.futureBound = false →
      Future.Get w = (.throws (.futureError .noState), w) ∧
      Future.Wait w = (.throws (.futureError .noState), w) ∧
      Future.WaitFor w = (.throws (.futureError .noState), w) ∧
      Future.WaitUntil w = (.throws (.futureError .noState), w)) ∧
    (∀ w : WorldVoid, w.futureBound = false →
      FutureVoid.Get w = (.throws (.futureError .noState), w)) := by
  constructor
  · intro T w hf
    refine ⟨?_, ?_, ?_, ?_⟩ <;>
      simp [Future.Get, Future.Wait, Future.WaitFor, Future.WaitUntil, hf]
  · intro w hf
    simp [FutureVoid.Get, hf]

/-- C9 witness: a default-constructed-style world with no future bound, and a
future already consumed by a successful `Get`. -/
theorem C9_invalid_future_throws_no_state_witness :
    (Future.Get (⟨FutureState.init, true, false⟩ : World Nat) =
      (.throws (.futureError .noState), ⟨FutureState.init, true, false⟩) ∧
      Future.Wait (⟨FutureState.init, true, false⟩ : World Nat) =
        (.throws (.futureError .noState), ⟨FutureState.init, true, false⟩)) ∧
    FutureVoid.Get ⟨FutureStateVoid.init, true, false⟩ =
      (.throws (.futureError .noState), ⟨FutureStateVoid.init, true, false⟩) := by
  have hg := C9_invalid_future_throws_no_state.1 Nat
    ⟨FutureState.init, true, false⟩ rfl
  have hv := C9_invalid_future_throws_no_state.2
    ⟨FutureStateVoid.init, true, false⟩ rfl
  exact ⟨⟨hg.1, hg.2.1⟩, hv⟩

/-- C10: the `Promise` destructor (generic and `void`) resolves the shared
state with `broken_promise` exactly when the promise still owns a state
(`state_` non-null) that is not ready; destroying a moved-from promise or an
already-resolved promise leaves every shared state unchanged. -/
theorem C10_destructor_resolves_iff_unready :
    (∀ (T : Type) (w : World T),
      (w.promiseBound = true → w.fs.is_ready = false →
        (Promise.destruct w).fs =
          ⟨w.fs.result.SetException (.futureError .brokenPromise), true,
            w.fs.is_retrieved⟩) ∧
      (w.promiseBound = false ∨ w.fs.is_ready = true →
        (Promise.destruct w).fs = w.fs)) ∧
    (∀ w : WorldVoid,
      (w.promiseBound = true → w.fs.is_ready = false →
        (PromiseVoid.destruct w).fs =
          ⟨w.fs.result.SetException (.futureError .brokenPromise), true,
            w.fs.is_retrieved⟩) ∧
      (w.promiseBound = false ∨ w.fs.is_ready = true →
        (PromiseVoid.destruct w).fs = w.fs)) := by
  constructor
  · intro T w
    constructor
    · intro hp hr
      simp [Promise.destruct, FutureState.IsReady, FutureState.SetException,
        hp, hr]
    · rintro (hp | hr)
      · simp [Promise.destruct, hp]
      · simp [Promise.destruct, FutureState.IsReady, hr]
  · intro w
    constructor
    · intro hp hr
      simp [PromiseVoid.destruct, FutureStateVoid.IsReady,
        FutureStateVoid.SetException, hp, hr]
    · rintro (hp | hr)
      · simp [PromiseVoid.destruct, hp]
      · simp [PromiseVoid.destruct, FutureStateVoid.IsReady, hr]

/-- C10 witness: an unresolved owning promise gets `broken_promise`; a
moved-from promise and an already-resolved promise change nothing. -/
theorem C10_destructor_resolves_iff_unready_witness :
    (Promise.destruct (⟨FutureState.init, true, false⟩ : World Nat)).fs =
      ⟨(ResultStore.init : ResultStore Nat).SetException
        (.futureError .brokenPromise), true, false⟩ ∧
    (Promise.destruct (⟨FutureState.init, false, false⟩ : World Nat)).fs =
      (FutureState.init : FutureState Nat) ∧
    (PromiseVoid.destruct ⟨⟨⟨true, none⟩, true, true⟩, true, true⟩).fs =
      ⟨⟨true, none⟩, true, true⟩ := by
  refine ⟨?_, ?_, ?_⟩
  · exact (C10_destructor_resolves_iff_unready.1 Nat
      ⟨FutureState.init, true, false⟩).1 rfl rfl
  · exact (C10_destructor_resolves_iff_unready.1 Nat
      ⟨FutureState.init, false, false⟩).2 (Or.inl rfl)
  · exact (C10_destructor_resolves_iff_unready.2
      ⟨⟨⟨true, none⟩, true, true⟩, true, true⟩).2 (Or.inr rfl)

/-- One `TaskStep` preserves "a Critical task is never `Cancelled` with
reason `Overload`" (and preserves importance). -/
lemma taskStep_preserves_critical_no_overload {c c2 : TaskCtx}
    (h : TaskStep c c2) (hc : c.importance = .kCritical) :
    c2.importance = .kCritical ∧
    ¬(c2.state = .kCancelled ∧ c2.reason = .kOverload) := by
  cases h with
  | enqueue h => exact ⟨hc, by simp⟩
  | dispatch h => exact ⟨hc, by simp⟩
  | suspend h => exact ⟨hc, by simp⟩
  | resume h => exact ⟨hc, by simp⟩
  | complete h => exact ⟨hc, by simp⟩
  | requestCancel r hr hterm =>
    refine ⟨hc, ?_⟩
    rintro ⟨hst, -⟩
    simp only [TaskCtx.IsFinished, Bool.or_eq_false_iff, decide_eq_false_iff_not]
      at hterm
    exact hterm.1 hst
  | cancellationPoint h hreq hcrit =>
    refine ⟨hc, ?_⟩
    rintro ⟨-, hre⟩
    exact hcrit ⟨hc, hre⟩
  | overloadCancel h himp =>
    rw [hc] at himp
    cases himp

/-- Along any reachable execution from a Critical task that is not already
`Cancelled`-with-`Overload`, no state is `Cancelled` with reason
`Overload`. -/
lemma reachable_critical_no_overload {c c2 : TaskCtx}
    (h : TaskReachable c c2) (hc : c.importance = .kCritical)
    (hno : ¬(c.state = .kCancelled ∧ c.reason = .kOverload)) :
    c2.importance = .kCritical ∧
    ¬(c2.state = .kCancelled ∧ c2.reason = .kOverload) := by
  induction h with
  | refl => exact ⟨hc, hno⟩
  | tail hsteps hstep ih =>
    exact taskStep_preserves_critical_no_overload hstep ih.1

/-- C7: no execution reachable from a freshly created `Critical`-importance
task ever puts it in state `Cancelled` with cancellation reason `Overload`;
a freshly created `Normal`-importance task can reach exactly that state
under processor overload. -/
theorem C7_critical_immune_to_overload :
    (∀ c : TaskCtx, TaskReachable (TaskCtx.init .kCritical) c →
      ¬(c.state = .kCancelled ∧ c.reason = .kOverload)) ∧
    (∃ c : TaskCtx, TaskReachable (TaskCtx.init .kNormal) c ∧
      c.state = .kCancelled ∧ c.reason = .kOverload) := by
  constructor
  · intro c hreach
    exact (reachable_critical_no_overload hreach rfl (by simp [TaskCtx.init])).2
  · refine ⟨⟨.kCancelled, .kOverload, .kNormal, true⟩, ?_, rfl, rfl⟩
    exact Relation.ReflTransGen.tail
      (Relation.ReflTransGen.single (TaskStep.enqueue (TaskCtx.init .kNormal) rfl))
      (TaskStep.overloadCancel ⟨.kQueued, .kNone, .kNormal, false⟩ rfl rfl)

/-- C7 witness: the freshly created Critical task itself (reachable in zero
steps) is not `Cancelled` with reason `Overload`. -/
theorem C7_critical_immune_to_overload_witness :
    ¬((TaskCtx.init Importance.kCritical).state = TaskState.kCancelled ∧
      (TaskCtx.init Importance.kCritical).reason = CancellationReason.kOverload) :=
  C7_critical_immune_to_overload.1 (TaskCtx.init Importance.kCritical)
    Relation.ReflTransGen.refl

/-- C8: `Task::WaitFor` on a task that has not finished, with a deadline that
elapses first, returns the timed-out outcome and leaves the target context —
in particular its cancellation reason — unchanged; if the reason was `None`
before, `GetCancellationReason` still reports `None` afterwards. -/
theorem C8_timeout_does_not_cancel (target : TaskCtx)
    (hrun : target.IsFinished = false) :
    Task.DoWaitUntil target true = (.timedOut, target) ∧
    (Task.DoWaitUntil target true).2.GetCancellationReason =
      target.GetCancellationReason ∧
    (target.GetCancellationReason = .kNone →
      (Task.DoWaitUntil target true).2.GetCancellationReason = .kNone) := by
  have h : Task.DoWaitUntil target true = (.timedOut, target) := by
    simp [Task.DoWaitUntil, hrun]
  exact ⟨h, by rw [h], fun hn => by rw [h]; exact hn⟩

/-- C8 witness: a running task with no cancellation recorded. -/
theorem C8_timeout_does_not_cancel_witness :
    Task.DoWaitUntil ⟨.kRunning, .kNone, .kNormal, false⟩ true =
      (.timedOut, ⟨.kRunning, .kNone, .kNormal, false⟩) ∧
    (Task.DoWaitUntil ⟨.kRunning, .kNone, .kNormal, false⟩ true).2.GetCancellationReason =
      CancellationReason.kNone :=
  ⟨(C8_timeout_does_not_cancel ⟨.kRunning, .kNone, .kNormal, false⟩ rfl).1,
    (C8_timeout_does_not_cancel ⟨.kRunning, .kNone, .kNormal, false⟩ rfl).2.2 rfl⟩
